import Mathlib

/-!
Verification of the GitHub stats generator (`generate_stats.py`).

The Python source is shallowly embedded: pure helpers become Lean functions,
the HTTP layer is abstracted by passing the fetched data (pages of events,
per-repo probe outcomes, response headers) as explicit arguments, and the
Python `dict` used for daily contributions becomes an insertion-ordered
association list.  Machine-level details that the claims do not touch
(strftime formatting of dates, float formatting of disk usage) are kept as
abstract string-valued parameters.
-/

set_option autoImplicit false

namespace SyncStats

/-! ## Substring machinery

Models Python's `in` operator on strings and literal containment, used by the
`Link`-header parsing and by the "message embeds the count" properties. -/

/-- True when `pat` occurs as a contiguous run inside `l`. -/
def hasSubList (pat : List Char) : List Char → Bool
  | [] => pat.isEmpty
  | c :: cs => pat.isPrefixOf (c :: cs) || hasSubList pat cs

/-- Models Python's `pat in s` for strings. -/
def strContains (s pat : String) : Bool :=
  hasSubList pat.data s.data

theorem isPrefixOf_append_self (l r : List Char) : l.isPrefixOf (l ++ r) = true := by
  induction l with
  | nil => simp [List.isPrefixOf]
  | cons a as ih => simp [List.isPrefixOf, ih]

theorem hasSubList_of_isPrefixOf {pat l : List Char} (h : pat.isPrefixOf l = true) :
    hasSubList pat l = true := by
  cases l with
  | nil =>
    cases pat with
    | nil => rfl
    | cons a as => simp [List.isPrefixOf] at h
  | cons c cs => simp [hasSubList, h]

theorem hasSubList_cons {pat l : List Char} (c : Char) (h : hasSubList pat l = true) :
    hasSubList pat (c :: l) = true := by
  simp [hasSubList, h]

theorem hasSubList_append_left {pat l : List Char} (pre : List Char)
    (h : hasSubList pat l = true) : hasSubList pat (pre ++ l) = true := by
  induction pre with
  | nil => simpa using h
  | cons c cs ih => simpa using hasSubList_cons c ih

theorem strContains_append_self (a b : String) : strContains (a ++ b) a = true := by
  have hdata : (a ++ b).data = a.data ++ b.data := rfl
  unfold strContains
  rw [hdata]
  exact hasSubList_of_isPrefixOf (isPrefixOf_append_self a.data b.data)

/-! ## Daily-contribution mappings

Python's `daily_contributions` dict (ISO date string → count) is modelled as
an insertion-ordered association list. -/

/-- Models `sum(daily_contributions.values())`. -/
def sumValues (m : List (String × Nat)) : Nat :=
  (m.map (fun p => p.2)).sum

/-- Models `daily_contributions.get(k, 0)`. -/
def lookupD (m : List (String × Nat)) (k : String) : Nat :=
  match m.find? (fun p => p.1 == k) with
  | some p => p.2
  | none => 0

/-! ## `generate_contribution_summary` (source lines 248-258) -/

/-- Direct translation of `GitHubStatsGenerator.generate_contribution_summary`. -/
def generate_contribution_summary (daily_contributions : List (String × Nat)) : String :=
  let total := sumValues daily_contributions
  if total = 0 then
    "No contributions in the last 7 days"
  else if total ≤ 5 then
    toString total ++ " contributions - Light activity this week"
  else if total ≤ 15 then
    toString total ++ " contributions - Moderate activity this week"
  else
    toString total ++ " contributions - High activity this week"

/-! ## `generate_contribution_calendar` (source lines 222-246)

`datetime.now(timezone.utc)` is abstracted as an integer day index `today`,
`timedelta(days=i)` as integer subtraction, and the two `strftime` calls as
abstract formatting functions `fmtDate` (for `%Y-%m-%d`) and `fmtDay`
(for `%a`). -/

/-- The color ladder of the calendar loop, translated branch for branch. -/
def colorFor (count : Nat) : String :=
  if count = 0 then "#ebedf0"
  else if count ≤ 3 then "#9be9a8"
  else if count ≤ 6 then "#40c463"
  else if count ≤ 9 then "#30a14e"
  else "#216e39"

/-- One `<td>` cell of the HTML calendar, exactly as concatenated in the loop body. -/
def calendarCell (color dayName : String) : String :=
  "<td align=\x27center\x27 style=\x27padding: 5px;\x27><div style=\x27background-color: " ++
    color ++ "; width: 30px; height: 30px; border-radius: 3px;\x27></div><small>" ++
    dayName ++ "</small></td>"

/-- The loop `for i in range(6, -1, -1)`: iteration `j` handles `i = 6 - j`,
so cells run from `today - 6` (oldest) up to `today` (newest). -/
def calendarCells (today : Int) (daily_contributions : List (String × Nat))
    (fmtDate fmtDay : Int → String) : List String :=
  (List.range 7).map (fun j =>
    calendarCell
      (colorFor (lookupD daily_contributions (fmtDate (today - ((6 - j : Nat) : Int)))))
      (fmtDay (today - ((6 - j : Nat) : Int))))

/-- Direct translation of `GitHubStatsGenerator.generate_contribution_calendar`. -/
def generate_contribution_calendar (today : Int)
    (daily_contributions : List (String × Nat)) (fmtDate fmtDay : Int → String) : String :=
  "<table><tr>" ++ String.join (calendarCells today daily_contributions fmtDate fmtDay) ++
    "</tr></table>"

/-! ## Claim theorems for C1 and C2 -/

/-- C1 (counterexample): on the empty mapping the total is `0`, yet the summary
string does not embed the digit `0` anywhere, so the summary does not embed the
exact sum for every mapping. -/
theorem C1_counterexample_zero_total :
    sumValues [] = 0 ∧
      strContains (generate_contribution_summary []) "0" = false := by
  constructor
  · rfl
  · decide

/-- C1 (amended): for every mapping with a nonzero total the summary embeds the
exact sum of the values, and the buckets are: total 0 → the fixed
no-contributions message (which omits the count), 1-5 → light, 6-15 → moderate,
strictly above 15 → high, with boundaries inclusive at 5 and 15. -/
theorem C1_contribution_summary_buckets (dc : List (String × Nat)) :
    (0 < sumValues dc →
      strContains (generate_contribution_summary dc) (toString (sumValues dc)) = true) ∧
    (sumValues dc = 0 →
      generate_contribution_summary dc = "No contributions in the last 7 days") ∧
    (1 ≤ sumValues dc → sumValues dc ≤ 5 →
      generate_contribution_summary dc =
        toString (sumValues dc) ++ " contributions - Light activity this week") ∧
    (6 ≤ sumValues dc → sumValues dc ≤ 15 →
      generate_contribution_summary dc =
        toString (sumValues dc) ++ " contributions - Moderate activity this week") ∧
    (15 < sumValues dc →
      generate_contribution_summary dc =
        toString (sumValues dc) ++ " contributions - High activity this week") := by
  refine ⟨?_, ?_, ?_, ?_, ?_⟩
  · intro h
    unfold generate_contribution_summary
    rw [if_neg (by omega)]
    split
    · exact strContains_append_self _ _
    · split
      · exact strContains_append_self _ _
      · exact strContains_append_self _ _
  · intro h
    unfold generate_contribution_summary
    rw [if_pos h]
  · intro h1 h5
    unfold generate_contribution_summary
    rw [if_neg (by omega), if_pos h5]
  · intro h6 h15
    unfold generate_contribution_summary
    rw [if_neg (by omega), if_neg (by omega), if_pos h15]
  · intro h
    unfold generate_contribution_summary
    rw [if_neg (by omega), if_neg (by omega), if_neg (by omega)]

/-- C1 (witness): concrete totals at the bucket boundaries 5, 6, 15, 16 and a
concrete embeds-the-count instance, obtained from the amended theorem. -/
theorem C1_boundary_witness :
    (generate_contribution_summary [("2024-01-01", 5)] =
      toString (sumValues [("2024-01-01", 5)]) ++ " contributions - Light activity this week") ∧
    (generate_contribution_summary [("2024-01-01", 6)] =
      toString (sumValues [("2024-01-01", 6)]) ++ " contributions - Moderate activity this week") ∧
    (generate_contribution_summary [("2024-01-01", 15)] =
      toString (sumValues [("2024-01-01", 15)]) ++ " contributions - Moderate activity this week") ∧
    (generate_contribution_summary [("2024-01-01", 16)] =
      toString (sumValues [("2024-01-01", 16)]) ++ " contributions - High activity this week") ∧
    strContains (generate_contribution_summary [("2024-01-01", 7)])
      (toString (sumValues [("2024-01-01", 7)])) = true :=
  ⟨(C1_contribution_summary_buckets [("2024-01-01", 5)]).2.2.1 (by decide) (by decide),
   (C1_contribution_summary_buckets [("2024-01-01", 6)]).2.2.2.1 (by decide) (by decide),
   (C1_contribution_summary_buckets [("2024-01-01", 15)]).2.2.2.1 (by decide) (by decide),
   (C1_contribution_summary_buckets [("2024-01-01", 16)]).2.2.2.2 (by decide),
   (C1_contribution_summary_buckets [("2024-01-01", 7)]).1 (by decide)⟩

/-- C2: for every mapping and every current day, the calendar is the fixed
framing around exactly 7 cells; the `j`-th cell (0-based, oldest first)
describes day `today - (6 - j)`, carries that day's name abbreviation, and its
color is exactly determined by that day's count with thresholds
0 / 1-3 / 4-6 / 7-9 / 10+. -/
theorem C2_calendar_cells (today : Int) (dc : List (String × Nat))
    (fmtDate fmtDay : Int → String) :
    (calendarCells today dc fmtDate fmtDay).length = 7 ∧
    generate_contribution_calendar today dc fmtDate fmtDay =
      "<table><tr>" ++ String.join (calendarCells today dc fmtDate fmtDay) ++ "</tr></table>" ∧
    (∀ j : Nat, j < 7 →
      (calendarCells today dc fmtDate fmtDay).getD j "" =
        calendarCell
          (colorFor (lookupD dc (fmtDate (today - ((6 - j : Nat) : Int)))))
          (fmtDay (today - ((6 - j : Nat) : Int)))) ∧
    (∀ c : Nat,
      (c = 0 → colorFor c = "#ebedf0") ∧
      (1 ≤ c → c ≤ 3 → colorFor c = "#9be9a8") ∧
      (4 ≤ c → c ≤ 6 → colorFor c = "#40c463") ∧
      (7 ≤ c → c ≤ 9 → colorFor c = "#30a14e") ∧
      (10 ≤ c → colorFor c = "#216e39")) := by
  refine ⟨by simp [calendarCells], rfl, ?_, ?_⟩
  · intro j hj
    interval_cases j <;> rfl
  · intro c
    refine ⟨?_, ?_, ?_, ?_, ?_⟩
    · intro h
      unfold colorFor
      rw [if_pos h]
    · intro h1 h3
      unfold colorFor
      rw [if_neg (by omega), if_pos h3]
    · intro h4 h6
      unfold colorFor
      rw [if_neg (by omega), if_neg (by omega), if_pos h6]
    · intro h7 h9
      unfold colorFor
      rw [if_neg (by omega), if_neg (by omega), if_neg (by omega), if_pos h9]
    · intro h
      unfold colorFor
      rw [if_neg (by omega), if_neg (by omega), if_neg (by omega), if_neg (by omega)]

/-- C2 (witness): the theorem instantiated on a concrete day and mapping:
7 cells, the newest cell shows today's count in the 4-6 tier, and the color
ladder evaluated at 0, 2, 5, 8 and 12. -/
theorem C2_calendar_witness :
    (calendarCells 0 [("d0", 5)] (fun _ => "d0") (fun _ => "Mon")).length = 7 ∧
    (calendarCells 0 [("d0", 5)] (fun _ => "d0") (fun _ => "Mon")).getD 6 "" =
      calendarCell
        (colorFor (lookupD [("d0", 5)] ((fun (_ : Int) => "d0") ((0 : Int) - ((6 - 6 : Nat) : Int)))))
        ((fun (_ : Int) => "Mon") ((0 : Int) - ((6 - 6 : Nat) : Int))) ∧
    colorFor 0 = "#ebedf0" ∧ colorFor 2 = "#9be9a8" ∧ colorFor 5 = "#40c463" ∧
    colorFor 8 = "#30a14e" ∧ colorFor 12 = "#216e39" :=
  ⟨(C2_calendar_cells 0 [("d0", 5)] (fun _ => "d0") (fun _ => "Mon")).1,
   (C2_calendar_cells 0 [("d0", 5)] (fun _ => "d0") (fun _ => "Mon")).2.2.1 6 (by decide),
   ((C2_calendar_cells 0 [] (fun _ => "") (fun _ => "")).2.2.2 0).1 rfl,
   ((C2_calendar_cells 0 [] (fun _ => "") (fun _ => "")).2.2.2 2).2.1 (by decide) (by decide),
   ((C2_calendar_cells 0 [] (fun _ => "") (fun _ => "")).2.2.2 5).2.2.1 (by decide) (by decide),
   ((C2_calendar_cells 0 [] (fun _ => "") (fun _ => "")).2.2.2 8).2.2.2.1 (by decide) (by decide),
   ((C2_calendar_cells 0 [] (fun _ => "") (fun _ => "")).2.2.2 12).2.2.2.2 (by decide)⟩

/-! ## Repositories and `analyze_repos` (source lines 173-202)

A repository record keeps the fields `analyze_repos` consumes; the outcome of
the secondary HTTP GET against the repo's releases endpoint is carried as an
explicit `ProbeResult` (an exception — e.g. the 2-second timeout — or a
response with a status code and the length of its JSON body). -/

/-- Outcome of `requests.get(repo["releases_url"]...)` inside the probe loop. -/
inductive ProbeResult where
  | exception : ProbeResult
  | response (status : Nat) (bodyLen : Nat) : ProbeResult
deriving DecidableEq

structure Repo where
  license : Option String
  stargazers_count : Nat
  forks_count : Nat
  watchers_count : Nat
  size : Nat
  releases_response : ProbeResult
deriving DecidableEq

structure RepoStats where
  license : String
  releases : Nat
  packages : Nat
  disk_usage : Nat
  total_stars : Nat
  total_forks : Nat
  total_watchers : Nat
deriving DecidableEq

/-- The license keys of the repos that declare a license (the list
comprehension on source line 175). -/
def licensesOf (repos : List Repo) : List String :=
  repos.filterMap (fun r => r.license)

/-- The distinct keys of a list in first-occurrence order: the iteration order
of the `collections.Counter` built from it. -/
def firstKeys : List String → List String
  | [] => []
  | k :: ks => k :: (firstKeys ks).filter (fun k2 => decide (k2 ≠ k))

/-- The predicate singling out keys of maximal multiplicity. -/
def maxCountKey (l : List String) (k : String) : Bool :=
  (firstKeys l).all (fun k2 => decide (l.count k2 ≤ l.count k))

/-- Models `Counter(l).most_common(1)[0][0]`: the documented behaviour of
`Counter.most_common` is to order elements of equal count in the order first
encountered, so the head of `most_common` is the first key (in
first-occurrence order) whose count is maximal. -/
def mostCommon1 (l : List String) : Option String :=
  (firstKeys l).find? (maxCountKey l)

/-- What one iteration of the probe loop (source lines 186-192) adds to
`releases_count`: the body length on a 200 response, otherwise nothing —
exceptions and non-200 statuses are swallowed. -/
def releaseContribution (r : Repo) : Nat :=
  match r.releases_response with
  | ProbeResult.exception => 0
  | ProbeResult.response status bodyLen => if status = 200 then bodyLen else 0

/-- Direct translation of `GitHubStatsGenerator.analyze_repos`.  When
`licenses` is nonempty, `mostCommon1` is provably `some` (see
`C3_license_mode`), so the `getD` default is never taken on that branch. -/
def analyze_repos (repos : List Repo) : RepoStats :=
  { license :=
      if (licensesOf repos).isEmpty then "None"
      else (mostCommon1 (licensesOf repos)).getD "None"
    releases := ((repos.take 10).map releaseContribution).sum
    packages := 0
    disk_usage := (repos.map (fun r => r.size)).sum
    total_stars := (repos.map (fun r => r.stargazers_count)).sum
    total_forks := (repos.map (fun r => r.forks_count)).sum
    total_watchers := (repos.map (fun r => r.watchers_count)).sum }

theorem analyze_repos_license (repos : List Repo) :
    (analyze_repos repos).license =
      if (licensesOf repos).isEmpty then "None"
      else (mostCommon1 (licensesOf repos)).getD "None" := rfl

theorem analyze_repos_releases (repos : List Repo) :
    (analyze_repos repos).releases = ((repos.take 10).map releaseContribution).sum := rfl

theorem mem_firstKeys (k : String) : ∀ l : List String, k ∈ firstKeys l ↔ k ∈ l
  | [] => by simp [firstKeys]
  | a :: as => by
    by_cases h : k = a
    · simp [firstKeys, h]
    · simp [firstKeys, List.mem_filter, mem_firstKeys k as, h]

theorem firstKeys_ne_nil {l : List String} (h : l ≠ []) : firstKeys l ≠ [] := by
  cases l with
  | nil => exact absurd rfl h
  | cons a as => simp [firstKeys]

/-- The first occurrence of a fresh key survives into `firstKeys` at the
corresponding position. -/
theorem firstKeys_split (k' : String) :
    ∀ m₁ m₂ : List String, k' ∉ m₁ →
      ∃ rest, firstKeys (m₁ ++ k' :: m₂) = firstKeys m₁ ++ k' :: rest := by
  intro m₁
  induction m₁ with
  | nil =>
    intro m₂ _
    exact ⟨(firstKeys m₂).filter (fun k2 => decide (k2 ≠ k')), rfl⟩
  | cons a as ih =>
    intro m₂ hk
    have hka : ¬(k' = a) := fun h => hk (by simp [h])
    obtain ⟨rest, hrest⟩ := ih m₂ (fun h => hk (List.mem_cons_of_mem a h))
    refine ⟨rest.filter (fun k2 => decide (k2 ≠ a)), ?_⟩
    show a :: (firstKeys (as ++ k' :: m₂)).filter (fun k2 => decide (k2 ≠ a)) = _
    rw [hrest, List.filter_append]
    simp [firstKeys, List.filter_cons, hka]

/-- Any nonempty list of keys has a key of maximal image under `f`. -/
theorem exists_max_image (f : String → Nat) :
    ∀ l : List String, l ≠ [] → ∃ k, k ∈ l ∧ ∀ k2 ∈ l, f k2 ≤ f k := by
  intro l
  induction l with
  | nil => intro h; exact absurd rfl h
  | cons a as ih =>
    intro _
    by_cases has : as = []
    · subst has
      exact ⟨a, by simp, by simp⟩
    · obtain ⟨k, hk, hmax⟩ := ih has
      by_cases hle : f a ≤ f k
      · refine ⟨k, List.mem_cons_of_mem a hk, ?_⟩
        intro k2 hk2
        rcases List.mem_cons.mp hk2 with h | h
        · exact h ▸ hle
        · exact hmax k2 h
      · refine ⟨a, by simp, ?_⟩
        intro k2 hk2
        rcases List.mem_cons.mp hk2 with h | h
        · exact h ▸ le_refl _
        · exact le_trans (hmax k2 h) (by omega)

/-- `find?` never returns an element occurring after an earlier satisfier. -/
theorem find?_stable {α : Type} (p : α → Bool) (b a : α) (hb : p b = true) :
    ∀ l₁ l₂ : List α, (l₁ ++ b :: l₂).find? p = some a → a ∈ l₁ ∨ a = b := by
  intro l₁
  induction l₁ with
  | nil =>
    intro l₂ h
    rw [List.nil_append, List.find?_cons_of_pos _ hb] at h
    exact Or.inr (Option.some.inj h).symm
  | cons c cs ih =>
    intro l₂ h
    by_cases hc : p c = true
    · rw [List.cons_append, List.find?_cons_of_pos _ hc] at h
      exact Or.inl (by simp [(Option.some.inj h).symm])
    · rw [List.cons_append, List.find?_cons_of_neg _ (by simpa using hc)] at h
      rcases ih l₂ h with h1 | h1
      · exact Or.inl (List.mem_cons_of_mem c h1)
      · exact Or.inr h1

def mkRepo (lic : Option String) : Repo :=
  { license := lic, stargazers_count := 0, forks_count := 0, watchers_count := 0,
    size := 0, releases_response := ProbeResult.exception }

/-- The example from the claim: repos declaring licenses mit, mit, apache-2.0. -/
def mitExample : List Repo :=
  [mkRepo (some "mit"), mkRepo (some "mit"), mkRepo (some "apache-2.0")]

/-- C3 (counterexample): with no licensed repos the code returns the sentinel
`"None"` (capital N), which differs from the claimed sentinel `"none"`. -/
theorem C3_counterexample_sentinel_spelling :
    (analyze_repos []).license = "None" ∧ ("None" : String) ≠ "none" := by
  exact ⟨rfl, by decide⟩

/-- C3 (amended): the license field is the most frequent license key among the
repos that declare one — ties broken in favor of the first-encountered key
(stable argmax) — and the sentinel for the no-licensed-repos case is `"None"`
(capitalized, not `"none"`).  The stability conjunct says: any key tied with
the result either is the result or has the result occurring before its first
occurrence.  The mit/mit/apache-2.0 example yields `"mit"`. -/
theorem C3_license_mode (repos : List Repo) :
    (licensesOf repos = [] → (analyze_repos repos).license = "None") ∧
    (licensesOf repos ≠ [] →
      (analyze_repos repos).license ∈ licensesOf repos ∧
      (∀ k ∈ licensesOf repos,
        (licensesOf repos).count k ≤
          (licensesOf repos).count ((analyze_repos repos).license)) ∧
      (∀ (m₁ m₂ : List String) (k : String),
        licensesOf repos = m₁ ++ k :: m₂ → k ∉ m₁ →
        (licensesOf repos).count k =
          (licensesOf repos).count ((analyze_repos repos).license) →
        (analyze_repos repos).license = k ∨ (analyze_repos repos).license ∈ m₁)) ∧
    (analyze_repos mitExample).license = "mit" := by
  refine ⟨?_, ?_, by decide⟩
  · intro h
    rw [analyze_repos_license, if_pos (by simp [h])]
  · intro hne
    obtain ⟨kmax, hkmem, hkmax⟩ :=
      exists_max_image (fun k => (licensesOf repos).count k) (firstKeys (licensesOf repos))
        (firstKeys_ne_nil hne)
    have hP : maxCountKey (licensesOf repos) kmax = true := by
      unfold maxCountKey
      rw [List.all_eq_true]
      intro k2 hk2
      exact decide_eq_true (hkmax k2 hk2)
    have hsome : ∃ res, mostCommon1 (licensesOf repos) = some res := by
      have : (firstKeys (licensesOf repos)).find? (maxCountKey (licensesOf repos)) |>.isSome := by
        rw [List.find?_isSome]
        exact ⟨kmax, hkmem, hP⟩
      exact Option.isSome_iff_exists.mp this
    obtain ⟨res, hres⟩ := hsome
    have hlic : (analyze_repos repos).license = res := by
      rw [analyze_repos_license, if_neg (by simp [hne]), hres]
      rfl
    have hresP : maxCountKey (licensesOf repos) res = true :=
      List.find?_some hres
    have hresmem : res ∈ firstKeys (licensesOf repos) :=
      List.mem_of_find?_eq_some hres
    have hresmax : ∀ k ∈ licensesOf repos,
        (licensesOf repos).count k ≤ (licensesOf repos).count res := by
      intro k hk
      have hk' : k ∈ firstKeys (licensesOf repos) := (mem_firstKeys k _).mpr hk
      have := (List.all_eq_true.mp hresP) k hk'
      exact of_decide_eq_true this
    refine ⟨hlic ▸ (mem_firstKeys res _).mp hresmem, by rw [hlic]; exact hresmax, ?_⟩
    intro m₁ m₂ k hsplit hknotin htied
    rw [hlic] at htied ⊢
    have hkP : maxCountKey (licensesOf repos) k = true := by
      unfold maxCountKey
      rw [List.all_eq_true]
      intro k2 hk2
      exact decide_eq_true (htied ▸ of_decide_eq_true ((List.all_eq_true.mp hresP) k2 hk2))
    obtain ⟨rest, hfk⟩ := firstKeys_split k m₁ m₂ hknotin
    have hfind : (firstKeys m₁ ++ k :: rest).find? (maxCountKey (licensesOf repos)) = some res := by
      rw [← hfk, ← hsplit]
      exact hres
    rcases find?_stable (maxCountKey (licensesOf repos)) k res hkP (firstKeys m₁) rest hfind with
      h1 | h1
    · exact Or.inr ((mem_firstKeys res m₁).mp h1)
    · exact Or.inl h1

/-- C3 (witness): the stable-argmax theorem instantiated on the
mit/mit/apache-2.0 example. -/
theorem C3_license_mode_witness :
    (analyze_repos mitExample).license ∈ licensesOf mitExample ∧
    (licensesOf mitExample).count "apache-2.0" ≤
      (licensesOf mitExample).count ((analyze_repos mitExample).license) ∧
    (analyze_repos mitExample).license = "mit" :=
  ⟨((C3_license_mode mitExample).2.1 (by decide)).1,
   ((C3_license_mode mitExample).2.1 (by decide)).2.1 "apache-2.0" (by decide),
   (C3_license_mode mitExample).2.2⟩

/-- A repo whose releases endpoint timed out (probe raised). -/
def timeoutRepo : Repo :=
  { license := none, stargazers_count := 0, forks_count := 0, watchers_count := 0,
    size := 0, releases_response := ProbeResult.exception }

/-- A repo whose releases endpoint returned 200 with five releases. -/
def okRepo5 : Repo :=
  { license := none, stargazers_count := 0, forks_count := 0, watchers_count := 0,
    size := 0, releases_response := ProbeResult.response 200 5 }

/-- `timeoutRepo` with its probe outcome replaced by an empty success. -/
def zeroOkRepo : Repo :=
  { timeoutRepo with releases_response := ProbeResult.response 200 0 }

/-- C6: only the first 10 repos influence the release total; a repo whose
probe raised or returned a non-2xx status contributes exactly 0 — replacing
its outcome with an empty success changes nothing, so the remaining repos are
still processed and the (total) function never aborts.  Concretely, a repo
that timed out next to a repo with five releases yields a total of 5. -/
theorem C6_releases_probe_tolerated (repos : List Repo) :
    (analyze_repos repos).releases = (analyze_repos (repos.take 10)).releases ∧
    (∀ (l₁ l₂ : List Repo) (r r' : Repo),
      repos = l₁ ++ r :: l₂ →
      (r.releases_response = ProbeResult.exception ∨
        ∃ s n, r.releases_response = ProbeResult.response s n ∧ ¬(200 ≤ s ∧ s ≤ 299)) →
      r' = { r with releases_response := ProbeResult.response 200 0 } →
      (analyze_repos repos).releases = (analyze_repos (l₁ ++ r' :: l₂)).releases) ∧
    (analyze_repos [timeoutRepo, okRepo5]).releases = 5 := by
  refine ⟨?_, ?_, by decide⟩
  · simp [analyze_repos_releases, List.take_take]
  · intro l₁ l₂ r r' hsplit hfail hr'
    have hfr : releaseContribution r = 0 := by
      rcases hfail with h | ⟨s, n, h, hs⟩
      · simp [releaseContribution, h]
      · simp only [releaseContribution, h]
        rw [if_neg]
        intro h200
        exact hs ⟨by omega, by omega⟩
    have hfr' : releaseContribution r' = 0 := by
      rw [hr']
      rfl
    rw [analyze_repos_releases, analyze_repos_releases, hsplit,
      List.map_take, List.map_take, List.map_append, List.map_append,
      List.map_cons, List.map_cons, hfr, hfr']

/-- C6 (witness): the tolerated-probe theorem instantiated on a concrete pair
of repos, the first of which timed out. -/
theorem C6_releases_probe_witness :
    (analyze_repos [timeoutRepo, okRepo5]).releases =
      (analyze_repos [zeroOkRepo, okRepo5]).releases ∧
    (analyze_repos [timeoutRepo, okRepo5]).releases = 5 :=
  ⟨(C6_releases_probe_tolerated [timeoutRepo, okRepo5]).2.1 [] [okRepo5] timeoutRepo zeroOkRepo
      rfl (Or.inl rfl) rfl,
   (C6_releases_probe_tolerated [timeoutRepo, okRepo5]).2.2⟩

/-- C9: the packages counter is initialized to zero and never incremented, so
every snapshot reports zero packages whatever the input repositories. -/
theorem C9_packages_always_zero (repos : List Repo) :
    (analyze_repos repos).packages = 0 := rfl

/-! ## Events and `get_user_events` (source lines 66-90)

An event carries the fields the analyzers consume.  `created_at` is the raw
ISO timestamp string; `timestamp` is its parsed value (the result of
`datetime.strptime`), abstracted as an integer so that only its order matters.
The HTTP pagination is abstracted by handing the function the sequence of
pages the server would return; positions past the end of that sequence stand
for empty pages. -/

structure Event where
  type : String
  action : Option String
  created_at : String
  timestamp : Int
deriving DecidableEq

/-- An event survives the cutoff test when it is not strictly older than the
cutoff (source line 85 compares `event_date < cutoff_date`). -/
def withinCutoff (cutoff : Int) (e : Event) : Bool :=
  decide (cutoff ≤ e.timestamp)

/-- The inner `for event in data` loop of one page: the events appended before
the first too-old event, and whether such an event triggered the early
`return`. -/
def takePage (cutoff : Int) : List Event → List Event × Bool
  | [] => ([], false)
  | e :: rest =>
    if e.timestamp < cutoff then ([], true)
    else
      let r := takePage cutoff rest
      (e :: r.1, r.2)

/-- The `while page <= 10` loop, with the remaining page budget as fuel. -/
def getUserEventsAux (cutoff : Int) : Nat → List (List Event) → List Event → List Event
  | 0, _, acc => acc
  | _ + 1, [], acc => acc
  | fuel + 1, pg :: rest, acc =>
    if pg = [] then acc
    else
      let r := takePage cutoff pg
      if r.2 then acc ++ r.1
      else getUserEventsAux cutoff fuel rest (acc ++ r.1)

/-- Direct translation of `GitHubStatsGenerator.get_user_events`: up to 10
pages, stopping at the first empty page or the first too-old event. -/
def get_user_events (cutoff : Int) (pages : List (List Event)) : List Event :=
  getUserEventsAux cutoff 10 pages []

/-- The pages the loop can actually look at: cut at the first empty page. -/
def truncPages : List (List Event) → List (List Event)
  | [] => []
  | pg :: rest => if pg = [] then [] else pg :: truncPages rest

theorem takePage_eq (cutoff : Int) :
    ∀ pg : List Event,
      takePage cutoff pg =
        (pg.takeWhile (withinCutoff cutoff), !pg.all (withinCutoff cutoff)) := by
  intro pg
  induction pg with
  | nil => rfl
  | cons e rest ih =>
    by_cases h : e.timestamp < cutoff
    · have hw : withinCutoff cutoff e = false := by
        simp only [withinCutoff, decide_eq_false_iff_not]
        omega
      simp [takePage, h, hw]
    · have hw : withinCutoff cutoff e = true := by
        simp only [withinCutoff, decide_eq_true_eq]
        omega
      simp [takePage, h, hw, ih]

theorem takeWhile_append_all {α : Type} (p : α → Bool) (l₁ l₂ : List α)
    (h : l₁.all p = true) : (l₁ ++ l₂).takeWhile p = l₁ ++ l₂.takeWhile p := by
  induction l₁ with
  | nil => rfl
  | cons a as ih =>
    simp only [List.all_cons, Bool.and_eq_true] at h
    simp [List.takeWhile_cons, h.1, ih h.2]

theorem takeWhile_all_eq {α : Type} (p : α → Bool) (l : List α)
    (h : l.all p = true) : l.takeWhile p = l := by
  have := takeWhile_append_all p l [] h
  simpa using this

theorem takeWhile_append_not_all {α : Type} (p : α → Bool) (l₁ l₂ : List α)
    (h : l₁.all p = false) : (l₁ ++ l₂).takeWhile p = l₁.takeWhile p := by
  induction l₁ with
  | nil => simp at h
  | cons a as ih =>
    by_cases hp : p a = true
    · simp only [List.all_cons, hp, Bool.true_and] at h
      simp [List.takeWhile_cons, hp, ih h]
    · have hp' : p a = false := by simpa using hp
      simp [List.takeWhile_cons, hp']

theorem getUserEventsAux_spec (cutoff : Int) :
    ∀ (fuel : Nat) (pages : List (List Event)) (acc : List Event),
      getUserEventsAux cutoff fuel pages acc =
        acc ++ (truncPages (pages.take fuel)).flatten.takeWhile (withinCutoff cutoff) := by
  intro fuel
  induction fuel with
  | zero => intro pages acc; simp [getUserEventsAux, truncPages]
  | succ n ih =>
    intro pages acc
    cases pages with
    | nil => simp [getUserEventsAux, truncPages]
    | cons pg rest =>
      by_cases hpg : pg = []
      · simp [getUserEventsAux, hpg, truncPages]
      · have hstep : getUserEventsAux cutoff (n + 1) (pg :: rest) acc =
            (if (takePage cutoff pg).2 then acc ++ (takePage cutoff pg).1
             else getUserEventsAux cutoff n rest (acc ++ (takePage cutoff pg).1)) := by
          simp [getUserEventsAux, hpg]
        rw [hstep, takePage_eq]
        cases hall : pg.all (withinCutoff cutoff) with
        | true =>
          simp only [hall, Bool.not_true, if_neg (by simp : ¬(false = true))]
          rw [ih]
          rw [takeWhile_all_eq _ pg hall]
          simp only [List.take_succ_cons, truncPages, if_neg hpg, List.flatten_cons]
          rw [takeWhile_append_all _ pg _ hall, List.append_assoc]
        | false =>
          simp only [Bool.not_false]
          rw [if_pos trivial]
          simp only [List.take_succ_cons, truncPages, if_neg hpg, List.flatten_cons]
          rw [takeWhile_append_not_all _ pg _ hall]

/-- C4: the fetch returns exactly the longest prefix, in original order, of
the fetchable events (pages up to the first empty one, at most 10 pages,
concatenated in order) that stops right before the first event strictly older
than the cutoff; pages beyond the tenth never matter; and on the concrete
pages `[day0, day0-1, day0-8]` with a 7-day cutoff exactly the first two
events come back, in order. -/
theorem C4_event_fetch_cutoff (cutoff : Int) (pages : List (List Event)) :
    get_user_events cutoff pages =
      (truncPages (pages.take 10)).flatten.takeWhile (withinCutoff cutoff) ∧
    get_user_events cutoff pages = get_user_events cutoff (pages.take 10) ∧
    get_user_events (-7)
        [[⟨"PushEvent", none, "day0", 0⟩, ⟨"PushEvent", none, "day0-1", -1⟩,
          ⟨"PushEvent", none, "day0-8", -8⟩]] =
      [⟨"PushEvent", none, "day0", 0⟩, ⟨"PushEvent", none, "day0-1", -1⟩] := by
  refine ⟨?_, ?_, by decide⟩
  · rw [get_user_events, getUserEventsAux_spec]
    rfl
  · rw [get_user_events, get_user_events, getUserEventsAux_spec, getUserEventsAux_spec,
      List.take_take]
    simp

/-! ## `analyze_events` (source lines 204-220)

The `daily_contributions` dict is modelled as an insertion-ordered association
list; `bump` is one execution of
`daily_contributions[date] = daily_contributions.get(date, 0) + 1`. -/

def bump : List (String × Nat) → String → List (String × Nat)
  | [], k => [(k, 1)]
  | (k2, v) :: rest, k =>
    if k2 = k then (k2, v + 1) :: rest else (k2, v) :: bump rest k

structure ActivityStats where
  commits : Nat
  prs_opened : Nat
  pr_reviews : Nat
  daily_contributions : List (String × Nat)
deriving DecidableEq

/-- Direct translation of `GitHubStatsGenerator.analyze_events`; the date key
is the first 10 characters of `created_at`. -/
def analyze_events (events : List Event) : ActivityStats :=
  { commits := events.countP (fun e => e.type == "PushEvent")
    prs_opened :=
      events.countP (fun e => e.type == "PullRequestEvent" && e.action == some "opened")
    pr_reviews := events.countP (fun e => e.type == "PullRequestReviewEvent")
    daily_contributions := events.foldl (fun m e => bump m (e.created_at.take 10)) [] }

theorem sumValues_bump (m : List (String × Nat)) (k : String) :
    sumValues (bump m k) = sumValues m + 1 := by
  induction m with
  | nil => simp [bump, sumValues]
  | cons p rest ih =>
    obtain ⟨k2, v⟩ := p
    by_cases h : k2 = k
    · simp [bump, h, sumValues]
      omega
    · simp only [sumValues, List.map_cons, List.sum_cons] at ih ⊢
      simp only [bump, if_neg h, List.map_cons, List.sum_cons]
      omega

theorem pos_bump (m : List (String × Nat)) (k : String)
    (hm : ∀ p ∈ m, 0 < p.2) : ∀ p ∈ bump m k, 0 < p.2 := by
  induction m with
  | nil =>
    intro p hp
    simp [bump] at hp
    simp [hp]
  | cons q rest ih =>
    obtain ⟨k2, v⟩ := q
    intro p hp
    by_cases h : k2 = k
    · simp only [bump, if_pos h, List.mem_cons] at hp
      rcases hp with hp | hp
      · simp [hp]
      · exact hm p (List.mem_cons_of_mem _ hp)
    · simp only [bump, if_neg h, List.mem_cons] at hp
      rcases hp with hp | hp
      · exact hp ▸ hm (k2, v) (by simp)
      · exact ih (fun q hq => hm q (List.mem_cons_of_mem _ hq)) p hp

theorem daily_foldl_sum (events : List Event) :
    ∀ m : List (String × Nat),
      sumValues (events.foldl (fun m e => bump m (e.created_at.take 10)) m) =
        sumValues m + events.length := by
  induction events with
  | nil => intro m; simp
  | cons e rest ih =>
    intro m
    simp only [List.foldl_cons, List.length_cons]
    rw [ih, sumValues_bump]
    omega

theorem daily_foldl_pos (events : List Event) :
    ∀ m : List (String × Nat), (∀ p ∈ m, 0 < p.2) →
      ∀ p ∈ events.foldl (fun m e => bump m (e.created_at.take 10)) m, 0 < p.2 := by
  induction events with
  | nil =>
    intro m hm
    simpa using hm
  | cons e rest ih =>
    intro m hm
    simp only [List.foldl_cons]
    exact ih _ (pos_bump m _ hm)

/-- C10: every event increments exactly one date key by exactly one, so the
values of `daily_contributions` sum to the number of events, and every stored
value is strictly positive. -/
theorem C10_daily_contributions_sum (events : List Event) :
    sumValues ((analyze_events events).daily_contributions) = events.length ∧
    ∀ p ∈ (analyze_events events).daily_contributions, 0 < p.2 := by
  constructor
  · have h := daily_foldl_sum events []
    simpa [analyze_events, sumValues] using h
  · intro p hp
    exact daily_foldl_pos events [] (by simp) p (by simpa [analyze_events, sumValues] using hp)

/-- C10 (witness): two same-day events produce a mapping whose values sum to 2
and whose single entry is positive. -/
theorem C10_daily_contributions_witness :
    sumValues ((analyze_events
        [⟨"PushEvent", none, "2024-01-08T12:00:00Z", 0⟩,
         ⟨"IssuesEvent", none, "2024-01-08T13:00:00Z", 0⟩]).daily_contributions) = 2 ∧
    0 < (("2024-01-08", 2) : String × Nat).2 :=
  ⟨(C10_daily_contributions_sum
      [⟨"PushEvent", none, "2024-01-08T12:00:00Z", 0⟩,
       ⟨"IssuesEvent", none, "2024-01-08T13:00:00Z", 0⟩]).1,
   (C10_daily_contributions_sum
      [⟨"PushEvent", none, "2024-01-08T12:00:00Z", 0⟩,
       ⟨"IssuesEvent", none, "2024-01-08T13:00:00Z", 0⟩]).2
     ("2024-01-08", 2) (by decide)⟩

/-! ## `get_starred_count` and the Link header (source lines 98-111)

The HTTP response is abstracted as its `Link` header value (an absent header
is `""`, exactly what `response.headers.get("Link", "")` yields) and the list
of items in the JSON body.  The regex `page=(\d+)>; rel="last"` is embedded
literally: at each start position the literal `page=`, then a greedy nonempty
digit run, then the literal tail.  Greedy matching with backtracking
coincides with taking the maximal digit run here, because the tail pattern
starts with `>`, which no digit can satisfy. -/

/-- Models `int()` on the captured digit group. -/
def digitsToNat (ds : List Char) : Nat :=
  ds.foldl (fun n c => n * 10 + (c.toNat - 48)) 0

/-- The literal part of the pattern after the digit group. -/
def linkTailPat : List Char := (">; rel=\"last\"").data

/-- One attempted match of the regex anchored at the start of `cs`. -/
def matchLinkAt (cs : List Char) : Option Nat :=
  if ("page=").data.isPrefixOf cs then
    if ((cs.drop 5).takeWhile (fun c => c.isDigit)).isEmpty then none
    else if linkTailPat.isPrefixOf ((cs.drop 5).dropWhile (fun c => c.isDigit)) then
      some (digitsToNat ((cs.drop 5).takeWhile (fun c => c.isDigit)))
    else none
  else none

/-- Models `re.search`: the leftmost position with a successful match. -/
def searchLinkLast : List Char → Option Nat
  | [] => none
  | c :: cs =>
    match matchLinkAt (c :: cs) with
    | some n => some n
    | none => searchLinkLast cs

/-- Direct translation of `GitHubStatsGenerator.get_starred_count`. -/
def get_starred_count (linkHeader : String) (items : List String) : Nat :=
  if strContains linkHeader "last" then
    match searchLinkLast linkHeader.data with
    | some n => n
    | none => items.length
  else items.length

theorem eq_append_of_isPrefixOf {α : Type} [DecidableEq α] :
    ∀ {p l : List α}, p.isPrefixOf l = true → ∃ t, l = p ++ t := by
  intro p
  induction p with
  | nil => intro l _; exact ⟨l, rfl⟩
  | cons a as ih =>
    intro l h
    cases l with
    | nil => simp [List.isPrefixOf] at h
    | cons b bs =>
      simp only [List.isPrefixOf, Bool.and_eq_true, beq_iff_eq] at h
      obtain ⟨t, ht⟩ := ih h.2
      exact ⟨t, by rw [h.1, List.cons_append, ht]⟩

theorem matchLinkAt_contains_last {cs : List Char} {n : Nat}
    (h : matchLinkAt cs = some n) : hasSubList ("last").data cs = true := by
  unfold matchLinkAt at h
  split at h
  case isFalse => exact absurd h (by simp)
  case isTrue h1 =>
    split at h
    case isTrue => exact absurd h (by simp)
    case isFalse h2 =>
      split at h
      case isFalse => exact absurd h (by simp)
      case isTrue h3 =>
        obtain ⟨t, ht⟩ := eq_append_of_isPrefixOf h3
        have hlast :
            hasSubList ("last").data
              ((cs.drop 5).dropWhile (fun c => c.isDigit)) = true := by
          rw [ht,
            show linkTailPat = (">; rel=\"").data ++ (("last").data ++ ("\"").data) from
              by decide,
            List.append_assoc]
          exact hasSubList_append_left _
            (hasSubList_of_isPrefixOf (isPrefixOf_append_self _ _))
        have hcs : cs = cs.take 5 ++
            ((cs.drop 5).takeWhile (fun c => c.isDigit) ++
              (cs.drop 5).dropWhile (fun c => c.isDigit)) := by
          rw [List.takeWhile_append_dropWhile, List.take_append_drop]
        rw [hcs]
        exact hasSubList_append_left _ (hasSubList_append_left _ hlast)

theorem searchLinkLast_contains_last :
    ∀ {s : List Char} {n : Nat}, searchLinkLast s = some n →
      hasSubList ("last").data s = true := by
  intro s
  induction s with
  | nil => intro n h; simp [searchLinkLast] at h
  | cons c cs ih =>
    intro n h
    rw [searchLinkLast] at h
    cases hm : matchLinkAt (c :: cs) with
    | some m => exact matchLinkAt_contains_last hm
    | none =>
      rw [hm] at h
      exact hasSubList_cons c (ih h)

/-- C5: when the regex `page=(\d+)>; rel="last"` matches the Link header the
returned count is the captured page number, whatever the items of the single
fetched page; when it does not match (header absent, i.e. `""`, or present
but malformed) the returned count is the item count of the single page. -/
theorem C5_starred_count_link (linkHeader : String) (items : List String) (n : Nat) :
    (searchLinkLast linkHeader.data = some n →
      get_starred_count linkHeader items = n) ∧
    (searchLinkLast linkHeader.data = none →
      get_starred_count linkHeader items = items.length) := by
  constructor
  · intro h
    have hl : strContains linkHeader "last" = true := searchLinkLast_contains_last h
    rw [get_starred_count, if_pos hl, h]
  · intro h
    by_cases hl : strContains linkHeader "last" = true
    · rw [get_starred_count, if_pos hl, h]
    · rw [get_starred_count, if_neg hl]

/-- C5 (witness): a two-entry Link header whose `rel="last"` link advertises
page 5 yields 5 despite the single item fetched; a malformed header (no digits
after `page=`) falls back to the item count. -/
theorem C5_starred_count_witness :
    get_starred_count
        "<https://api.github.com/user/starred?per_page=1&page=2>; rel=\"next\", <https://api.github.com/user/starred?per_page=1&page=5>; rel=\"last\""
        ["only-item"] = 5 ∧
    get_starred_count "<https://api.github.com/user/starred?page=oops>; rel=\"last\""
        ["only-item"] = 1 :=
  ⟨(C5_starred_count_link
      "<https://api.github.com/user/starred?per_page=1&page=2>; rel=\"next\", <https://api.github.com/user/starred?per_page=1&page=5>; rel=\"last\""
      ["only-item"] 5).1 (by decide),
   (C5_starred_count_link "<https://api.github.com/user/starred?page=oops>; rel=\"last\""
      ["only-item"] 0).2 (by decide)⟩

/-! ## `update_readme` / the persist short-circuit (source lines 764-797)

The filesystem state of one file is `Option String` (missing, or present with
its content).  Each block of `update_readme` becomes a function returning the
new state of that file and whether a write occurred. -/

/-- The SVG block (source lines 769-781). -/
def persistSvg (existing : Option String) (content : String) : Option String × Bool :=
  let svg_changed :=
    match existing with
    | some old => if old = content then false else true
    | none => true
  if svg_changed then (some content, true) else (existing, false)

/-- The README block (source lines 786-797), including its redundant
`or not os.path.exists(readme_path)` disjunct. -/
def persistReadme (existing : Option String) (content : String) : Option String × Bool :=
  let readme_changed :=
    match existing with
    | some old => if old = content then false else true
    | none => true
  if readme_changed || existing.isNone then (some content, true) else (existing, false)

/-- C8: for both artifacts, a write happens exactly when the file's existing
content differs from (or the file lacks) the new content; after a persist the
file holds the new content, so an immediately repeated persist with identical
content never writes — starting from content that is not already current,
exactly the first of the two calls writes. -/
theorem C8_persist_write_once (existing : Option String) (content : String) :
    ((persistSvg existing content).2 = true ↔ existing ≠ some content) ∧
    ((persistReadme existing content).2 = true ↔ existing ≠ some content) ∧
    (persistSvg existing content).1 = some content ∧
    (persistReadme existing content).1 = some content ∧
    (persistSvg (persistSvg existing content).1 content).2 = false ∧
    (persistReadme (persistReadme existing content).1 content).2 = false ∧
    (existing ≠ some content →
      (persistSvg existing content).2 = true ∧
        (persistSvg (persistSvg existing content).1 content).2 = false) ∧
    (existing ≠ some content →
      (persistReadme existing content).2 = true ∧
        (persistReadme (persistReadme existing content).1 content).2 = false) := by
  cases existing with
  | none => simp [persistSvg, persistReadme]
  | some old =>
    by_cases h : old = content
    · simp [persistSvg, persistReadme, h]
    · simp [persistSvg, persistReadme, h]

/-- C8 (witness): persisting `"new"` twice over a file holding `"old"` writes
on the first call only, for both the SVG and the README paths. -/
theorem C8_persist_write_once_witness :
    (persistSvg (some "old") "new").2 = true ∧
    (persistSvg (persistSvg (some "old") "new").1 "new").2 = false ∧
    (persistReadme (some "old") "new").2 = true ∧
    (persistReadme (persistReadme (some "old") "new").1 "new").2 = false :=
  ⟨((C8_persist_write_once (some "old") "new").2.2.2.2.2.2.1 (by decide)).1,
   ((C8_persist_write_once (some "old") "new").2.2.2.2.2.2.1 (by decide)).2,
   ((C8_persist_write_once (some "old") "new").2.2.2.2.2.2.2 (by decide)).1,
   ((C8_persist_write_once (some "old") "new").2.2.2.2.2.2.2 (by decide)).2⟩

/-! ## `generate_profile_section` (source lines 260-642)

The SVG assembly is a straight-line sequence of conditional string appends;
it is embedded as the list of appended chunks, each tagged with what emitted
it (`raw` for config-independent pieces, `header` for a panel header,
`field` for a gated stat line), and the rendered markup is the concatenation
of the chunk texts.  The `strftime`d join date and the `:.2f`-formatted disk
usage (floating point) are carried as preformatted strings.  The markdown
table block after the `return` on source line 642 is unreachable and is not
modelled. -/

/-- One section of the display config: `cfg.get(name, {})`, a lookup that may
miss (absent key). -/
abbrev SectionCfg := String → Option Bool

/-- Models `section_cfg.get(key, True)`: absent keys default to enabled. -/
def cfgGet (c : SectionCfg) (k : String) : Bool :=
  (c k).getD true

structure Config where
  profile : SectionCfg
  calendar : SectionCfg
  activity_stats : SectionCfg
  community_stats : SectionCfg
  repository_stats : SectionCfg
  metadata : SectionCfg

structure ProfileView where
  name : String
  hireable : Bool
  created_at : String
  followers : Nat
  following : Nat
  public_repos : Nat

structure StatsView where
  commits : Nat
  pr_reviews : Nat
  prs_opened : Nat
  issues_open : Nat
  issue_comments : Nat
  orgs : Nat
  starred : Nat
  watching : Nat
  license : String
  releases : Nat
  packages : Nat
  disk_usage_mb : String
  total_stars : Nat
  total_forks : Nat
  total_watchers : Nat
  daily_contributions : List (String × Nat)
  summary : String

inductive Chunk where
  | raw (text : String) : Chunk
  | header (panel : String) (text : String) : Chunk
  | field (panel key : String) (text : String) : Chunk
deriving DecidableEq

def Chunk.text : Chunk → String
  | Chunk.raw t => t
  | Chunk.header _ t => t
  | Chunk.field _ _ t => t

/-- A conditionally appended chunk: `if flag: svg_content += ...`. -/
def gate (b : Bool) (c : Chunk) : List Chunk :=
  if b then [c] else []

/-- The `y_pos` accumulator: starts at `base` and gains 25 for each of the
previously handled `keys` that is enabled. -/
def yAfter (base : Nat) (c : SectionCfg) (keys : List String) : Nat :=
  base + 25 * (keys.countP (fun k => cfgGet c k))

/-- The f-string shared by all panel stat lines (icon `use` plus `text`). -/
def statText (pre icon : String) (x tx y : Nat) (body : String) : String :=
  pre ++ "  <use href=\"#" ++ icon ++ "-icon\" x=\"" ++ toString x ++ "\" y=\"" ++
    toString y ++ "\"/>\n  <text x=\"" ++ toString tx ++ "\" y=\"" ++ toString (y + 10) ++
    "\" font-family=\"Arial\" font-size=\"13\" fill=\"#c9d1d9\">" ++ body ++ "</text>"

/-- The f-string shared by the three profile detail lines. -/
def profileDetailText (icon : String) (y : Nat) (body : String) : String :=
  "\n  \n  <use href=\"#" ++ icon ++ "-icon\" x=\"20\" y=\"" ++ toString y ++
    "\"/>\n  <text x=\"42\" y=\"" ++ toString (y + 12) ++
    "\" font-family=\"Arial\" font-size=\"14\" fill=\"#c9d1d9\">" ++ body ++ "</text>"

/-- The f-string shared by the four panel headers. -/
def headerText (x : Nat) (pre title : String) : String :=
  pre ++ "  <text x=\"" ++ toString x ++
    "\" y=\"190\" font-family=\"Arial\" font-size=\"16\" font-weight=\"bold\" fill=\"#c9d1d9\">" ++
    title ++ "</text>"

/-- The static `<svg>` opening, `<defs>` icon block and background rect
(source lines 279-383): config-independent decorative markup, abbreviated to
its structure since no claim concerns its content (the spec places it out of
scope). -/
def svgPrelude : String :=
  "<svg width=\"900\" height=\"450\" xmlns=\"http://www.w3.org/2000/svg\">\n  <defs>\n" ++
    "...static icon definitions...\n  </defs>\n  \n  <rect width=\"900\" height=\"450\" fill=\"#0d1117\"/>\n  \n"

/-- One `<rect>`/`<text>` pair of the in-SVG calendar loop (source lines
426-444); iteration `j` handles `i = 6 - j`, with `x_pos = 550 + j * 45`. -/
def svgCalCell (today : Int) (dc : List (String × Nat)) (fmtDate fmtDay : Int → String)
    (j : Nat) : String :=
  "  <rect x=\"" ++ toString (550 + j * 45) ++
    "\" y=\"60\" width=\"35\" height=\"35\" fill=\"" ++
    colorFor (lookupD dc (fmtDate (today - ((6 - j : Nat) : Int)))) ++ "\" rx=\"3\"/>\n" ++
    "  <text x=\"" ++ toString (550 + j * 45 + 17) ++
    "\" y=\"115\" font-family=\"Arial\" font-size=\"10\" fill=\"#8b949e\" text-anchor=\"middle\">" ++
    fmtDay (today - ((6 - j : Nat) : Int)) ++ "</text>\n"

def svgCalendarBody (today : Int) (dc : List (String × Nat))
    (fmtDate fmtDay : Int → String) : String :=
  String.join ((List.range 7).map (svgCalCell today dc fmtDate fmtDay))

/-- The profile block (source lines 386-410). -/
def profileChunks (c : SectionCfg) (p : ProfileView) : List Chunk :=
  gate (cfgGet c "name")
    (Chunk.field "profile" "name"
      ("\n  <text x=\"20\" y=\"40\" font-family=\"Arial\" font-size=\"24\" font-weight=\"bold\" fill=\"#c9d1d9\">" ++
        p.name ++ "</text>")) ++
  gate (cfgGet c "joined_date")
    (Chunk.field "profile" "joined_date"
      (profileDetailText "calendar" (yAfter 58 c []) ("Joined: " ++ p.created_at))) ++
  gate (cfgGet c "followers")
    (Chunk.field "profile" "followers"
      (profileDetailText "users" (yAfter 58 c ["joined_date"])
        ("Followers: " ++ toString p.followers))) ++
  gate (cfgGet c "available_for_hire")
    (Chunk.field "profile" "available_for_hire"
      (profileDetailText "briefcase" (yAfter 58 c ["joined_date", "followers"])
        ("Available for hire: " ++ (if p.hireable then "Yes" else "No"))))

/-- The calendar region (source lines 413-444): two appends, both gated on the
same flag. -/
def calendarChunks (c : SectionCfg) (st : StatsView) (today : Int)
    (fmtDate fmtDay : Int → String) : List Chunk :=
  gate (cfgGet c "enabled")
    (Chunk.raw
      "\n  \n\n  <text x=\"550\" y=\"40\" font-family=\"Arial\" font-size=\"18\" font-weight=\"bold\" fill=\"#c9d1d9\">Last 7 Days</text>\n") ++
  gate (cfgGet c "enabled")
    (Chunk.raw (svgCalendarBody today st.daily_contributions fmtDate fmtDay))

/-- The unconditional summary line (source lines 446-449). -/
def summaryChunk (st : StatsView) : Chunk :=
  Chunk.raw
    ("\n  <text x=\"700\" y=\"130\" font-family=\"Arial\" font-size=\"12\" fill=\"#8b949e\" text-anchor=\"middle\">" ++
      st.summary ++ "</text>\n  \n")

/-- `has_activity` (source lines 452-458). -/
def hasActivity (c : SectionCfg) : Bool :=
  cfgGet c "commits" || cfgGet c "pr_reviews" || cfgGet c "prs_opened" ||
    cfgGet c "issues_open" || cfgGet c "issue_comments"

/-- `has_community` (source lines 461-466). -/
def hasCommunity (c : SectionCfg) : Bool :=
  cfgGet c "organizations" || cfgGet c "following" || cfgGet c "starred" ||
    cfgGet c "watching"

/-- `has_repos` (source lines 469-475). -/
def hasRepos (c : SectionCfg) : Bool :=
  cfgGet c "total_repos" || cfgGet c "license" || cfgGet c "releases" ||
    cfgGet c "packages" || cfgGet c "disk_usage"

/-- `has_metadata` (source lines 478-482). -/
def hasMetadata (c : SectionCfg) : Bool :=
  cfgGet c "stargazers" || cfgGet c "forkers" || cfgGet c "watchers"

/-- The four conditional headers (source lines 485-506). -/
def headerChunks (cfg : Config) : List Chunk :=
  gate (hasActivity cfg.activity_stats)
    (Chunk.header "activity_stats" (headerText 20 "\n" "Activity Stats")) ++
  gate (hasCommunity cfg.community_stats)
    (Chunk.header "community_stats" (headerText 240 "\n  \n" "Community Stats")) ++
  gate (hasRepos cfg.repository_stats)
    (Chunk.header "repository_stats" (headerText 460 "\n  \n" "Repository Stats")) ++
  gate (hasMetadata cfg.metadata)
    (Chunk.header "metadata" (headerText 680 "\n  \n" "Metadata")) ++
  [Chunk.raw "\n  \n"]

/-- The activity panel (source lines 509-545). -/
def activityChunks (c : SectionCfg) (st : StatsView) : List Chunk :=
  gate (cfgGet c "commits")
    (Chunk.field "activity_stats" "commits"
      (statText "\n" "git-commit" 20 38 (yAfter 210 c [])
        ("Commits (7d): " ++ toString st.commits))) ++
  gate (cfgGet c "pr_reviews")
    (Chunk.field "activity_stats" "pr_reviews"
      (statText "\n  \n" "eye" 20 38 (yAfter 210 c ["commits"])
        ("PR Reviews: " ++ toString st.pr_reviews))) ++
  gate (cfgGet c "prs_opened")
    (Chunk.field "activity_stats" "prs_opened"
      (statText "\n  \n" "git-pr" 20 38 (yAfter 210 c ["commits", "pr_reviews"])
        ("PRs Opened: " ++ toString st.prs_opened))) ++
  gate (cfgGet c "issues_open")
    (Chunk.field "activity_stats" "issues_open"
      (statText "\n  \n" "alert" 20 38 (yAfter 210 c ["commits", "pr_reviews", "prs_opened"])
        ("Issues Open: " ++ toString st.issues_open))) ++
  gate (cfgGet c "issue_comments")
    (Chunk.field "activity_stats" "issue_comments"
      (statText "\n  \n" "message" 20 38
        (yAfter 210 c ["commits", "pr_reviews", "prs_opened", "issues_open"])
        ("Issue Comments: " ++ toString st.issue_comments))) ++
  [Chunk.raw "\n  \n"]

/-- The community panel (source lines 548-577). -/
def communityChunks (c : SectionCfg) (p : ProfileView) (st : StatsView) : List Chunk :=
  gate (cfgGet c "organizations")
    (Chunk.field "community_stats" "organizations"
      (statText "\n" "building" 240 258 (yAfter 210 c [])
        ("Organizations: " ++ toString st.orgs))) ++
  gate (cfgGet c "following")
    (Chunk.field "community_stats" "following"
      (statText "\n  \n" "user-plus" 240 258 (yAfter 210 c ["organizations"])
        ("Following: " ++ toString p.following))) ++
  gate (cfgGet c "starred")
    (Chunk.field "community_stats" "starred"
      (statText "\n  \n" "star-outline" 240 258 (yAfter 210 c ["organizations", "following"])
        ("Starred: " ++ toString st.starred))) ++
  gate (cfgGet c "watching")
    (Chunk.field "community_stats" "watching"
      (statText "\n  \n" "eye" 240 258 (yAfter 210 c ["organizations", "following", "starred"])
        ("Watching: " ++ toString st.watching))) ++
  [Chunk.raw "\n  \n"]

/-- The repository panel (source lines 580-616). -/
def repositoryChunks (c : SectionCfg) (p : ProfileView) (st : StatsView) : List Chunk :=
  gate (cfgGet c "total_repos")
    (Chunk.field "repository_stats" "total_repos"
      (statText "\n" "folder" 460 478 (yAfter 210 c [])
        ("Total Repos: " ++ toString p.public_repos))) ++
  gate (cfgGet c "license")
    (Chunk.field "repository_stats" "license"
      (statText "\n  \n" "scale" 460 478 (yAfter 210 c ["total_repos"])
        ("License: " ++ st.license))) ++
  gate (cfgGet c "releases")
    (Chunk.field "repository_stats" "releases"
      (statText "\n  \n" "rocket" 460 478 (yAfter 210 c ["total_repos", "license"])
        ("Releases: " ++ toString st.releases))) ++
  gate (cfgGet c "packages")
    (Chunk.field "repository_stats" "packages"
      (statText "\n  \n" "package" 460 478 (yAfter 210 c ["total_repos", "license", "releases"])
        ("Packages: " ++ toString st.packages))) ++
  gate (cfgGet c "disk_usage")
    (Chunk.field "repository_stats" "disk_usage"
      (statText "\n  \n" "database" 460 478
        (yAfter 210 c ["total_repos", "license", "releases", "packages"])
        ("Disk: " ++ st.disk_usage_mb ++ " MB"))) ++
  [Chunk.raw "\n  \n"]

/-- The metadata panel (source lines 619-637). -/
def metadataChunks (c : SectionCfg) (st : StatsView) : List Chunk :=
  gate (cfgGet c "stargazers")
    (Chunk.field "metadata" "stargazers"
      (statText "\n" "star" 680 698 (yAfter 210 c [])
        ("Stargazers: " ++ toString st.total_stars))) ++
  gate (cfgGet c "forkers")
    (Chunk.field "metadata" "forkers"
      (statText "\n  \n" "fork" 680 698 (yAfter 210 c ["stargazers"])
        ("Forkers: " ++ toString st.total_forks))) ++
  gate (cfgGet c "watchers")
    (Chunk.field "metadata" "watchers"
      (statText "\n  \n" "eye" 680 698 (yAfter 210 c ["stargazers", "forkers"])
        ("Watchers: " ++ toString st.total_watchers)))

/-- The ordered sequence of appends performed by
`GitHubStatsGenerator.generate_profile_section` on its SVG-building path. -/
def generate_profile_section_chunks (cfg : Config) (p : ProfileView) (st : StatsView)
    (today : Int) (fmtDate fmtDay : Int → String) : List Chunk :=
  Chunk.raw svgPrelude ::
    (profileChunks cfg.profile p ++
      calendarChunks cfg.calendar st today fmtDate fmtDay ++
      [summaryChunk st] ++
      headerChunks cfg ++
      activityChunks cfg.activity_stats st ++
      communityChunks cfg.community_stats p st ++
      repositoryChunks cfg.repository_stats p st ++
      metadataChunks cfg.metadata st ++
      [Chunk.raw "\n</svg>"])

/-- The rendered markup: the concatenation of the appended chunks. -/
def generate_profile_section (cfg : Config) (p : ProfileView) (st : StatsView)
    (today : Int) (fmtDate fmtDay : Int → String) : String :=
  String.join ((generate_profile_section_chunks cfg p st today fmtDate fmtDay).map Chunk.text)

/-- Whether at least one of the given field keys is enabled in a section. -/
def anyEnabled (c : SectionCfg) (keys : List String) : Bool :=
  keys.any (fun k => cfgGet c k)

/-- The fields of each of the four panel groups. -/
def panelFieldKeys : String → List String
  | "activity_stats" => ["commits", "pr_reviews", "prs_opened", "issues_open", "issue_comments"]
  | "community_stats" => ["organizations", "following", "starred", "watching"]
  | "repository_stats" => ["total_repos", "license", "releases", "packages", "disk_usage"]
  | "metadata" => ["stargazers", "forkers", "watchers"]
  | _ => []

def sectionCfgOf (cfg : Config) : String → SectionCfg
  | "activity_stats" => cfg.activity_stats
  | "community_stats" => cfg.community_stats
  | "repository_stats" => cfg.repository_stats
  | "metadata" => cfg.metadata
  | _ => fun _ => none

def panelNames : List String :=
  ["activity_stats", "community_stats", "repository_stats", "metadata"]

/-- All (panel, field) pairs of the four panel groups. -/
def panelFieldPairs : List (String × String) :=
  [("activity_stats", "commits"), ("activity_stats", "pr_reviews"),
   ("activity_stats", "prs_opened"), ("activity_stats", "issues_open"),
   ("activity_stats", "issue_comments"),
   ("community_stats", "organizations"), ("community_stats", "following"),
   ("community_stats", "starred"), ("community_stats", "watching"),
   ("repository_stats", "total_repos"), ("repository_stats", "license"),
   ("repository_stats", "releases"), ("repository_stats", "packages"),
   ("repository_stats", "disk_usage"),
   ("metadata", "stargazers"), ("metadata", "forkers"), ("metadata", "watchers")]

theorem mem_gate {x c : Chunk} {b : Bool} : x ∈ gate b c ↔ b = true ∧ x = c := by
  cases b <;> simp [gate]

/-- C7: for every display config, a panel field's chunk is emitted if and only
if its boolean is enabled (absent keys defaulting to true), and a panel's
header chunk is emitted if and only if at least one field of that panel is
enabled — so disabling every field of a panel omits its header, while
disabling one field among several leaves the header and the other fields. -/
theorem C7_panel_gating (cfg : Config) (p : ProfileView) (st : StatsView)
    (today : Int) (fmtDate fmtDay : Int → String) :
    (∀ pk ∈ panelFieldPairs,
      ((∃ t, Chunk.field pk.1 pk.2 t ∈
          generate_profile_section_chunks cfg p st today fmtDate fmtDay) ↔
        cfgGet (sectionCfgOf cfg pk.1) pk.2 = true)) ∧
    (∀ pn ∈ panelNames,
      ((∃ t, Chunk.header pn t ∈
          generate_profile_section_chunks cfg p st today fmtDate fmtDay) ↔
        anyEnabled (sectionCfgOf cfg pn) (panelFieldKeys pn) = true)) := by
  constructor
  · intro pk hpk
    simp only [panelFieldPairs, List.mem_cons, List.not_mem_nil, or_false] at hpk
    rcases hpk with rfl | rfl | rfl | rfl | rfl | rfl | rfl | rfl | rfl | rfl | rfl | rfl |
      rfl | rfl | rfl | rfl | rfl <;>
      simp [generate_profile_section_chunks, profileChunks, calendarChunks, summaryChunk,
        headerChunks, activityChunks, communityChunks, repositoryChunks, metadataChunks,
        mem_gate, sectionCfgOf]
  · intro pn hpn
    simp only [panelNames, List.mem_cons, List.not_mem_nil, or_false] at hpn
    rcases hpn with rfl | rfl | rfl | rfl <;>
      simp [generate_profile_section_chunks, profileChunks, calendarChunks, summaryChunk,
        headerChunks, activityChunks, communityChunks, repositoryChunks, metadataChunks,
        mem_gate, sectionCfgOf, anyEnabled, panelFieldKeys, hasActivity, hasCommunity,
        hasRepos, hasMetadata, Bool.or_eq_true] <;>
      tauto

/-- A config disabling the whole activity panel and, in the community panel,
only the `following` field. -/
def witnessCfg : Config :=
  { profile := fun _ => none
    calendar := fun _ => none
    activity_stats := fun _ => some false
    community_stats := fun k => if k = "following" then some false else none
    repository_stats := fun _ => none
    metadata := fun _ => none }

def witnessProfile : ProfileView :=
  { name := "octocat", hireable := false, created_at := "January 01, 2020",
    followers := 1, following := 2, public_repos := 3 }

def witnessStats : StatsView :=
  { commits := 1, pr_reviews := 2, prs_opened := 3, issues_open := 4, issue_comments := 5,
    orgs := 6, starred := 7, watching := 8, license := "mit", releases := 9, packages := 0,
    disk_usage_mb := "1.00", total_stars := 10, total_forks := 11, total_watchers := 12,
    daily_contributions := [], summary := "s" }

/-- C7 (witness): with every activity field disabled the activity header is
absent; with only `following` disabled in the community panel its header is
present, `starred` is present and `following` is absent. -/
theorem C7_panel_gating_witness :
    (¬ ∃ t, Chunk.header "activity_stats" t ∈
        generate_profile_section_chunks witnessCfg witnessProfile witnessStats 0
          (fun _ => "") (fun _ => "")) ∧
    (∃ t, Chunk.header "community_stats" t ∈
        generate_profile_section_chunks witnessCfg witnessProfile witnessStats 0
          (fun _ => "") (fun _ => "")) ∧
    (¬ ∃ t, Chunk.field "community_stats" "following" t ∈
        generate_profile_section_chunks witnessCfg witnessProfile witnessStats 0
          (fun _ => "") (fun _ => "")) ∧
    (∃ t, Chunk.field "community_stats" "starred" t ∈
        generate_profile_section_chunks witnessCfg witnessProfile witnessStats 0
          (fun _ => "") (fun _ => "")) := by
  have h := C7_panel_gating witnessCfg witnessProfile witnessStats 0 (fun _ => "") (fun _ => "")
  refine ⟨?_, ?_, ?_, ?_⟩
  · intro hex
    have hc := (h.2 "activity_stats" (by simp [panelNames])).mp hex
    simp [witnessCfg, anyEnabled, panelFieldKeys, sectionCfgOf, cfgGet] at hc
  · exact (h.2 "community_stats" (by simp [panelNames])).mpr (by decide)
  · intro hex
    have hc := (h.1 ("community_stats", "following") (by simp [panelFieldPairs])).mp hex
    simp [witnessCfg, sectionCfgOf, cfgGet] at hc
  · exact (h.1 ("community_stats", "starred") (by simp [panelFieldPairs])).mpr (by decide)

end SyncStats
